import Mathlib

/-!
Verification development for the `shorttermemail` repository: a disposable
email inbox service consisting of several Express server variants
(`src/backend/server.js`, `src/unnamed/part_000` .. `part_003`) sharing a
common shape: an email record, an in-memory (or SQLite) store, a
simulate-email endpoint, a provider webhook endpoint, and retrieval /
deletion / cleanup endpoints.

The JavaScript is shallowly embedded: each route handler becomes a pure Lean
function from (request payload, current time, store state) to (response,
new store state).  JavaScript `undefined`-able string fields are `Option
String`; JS truthiness (`undefined` and `""` falsy) and `x || y` defaulting
are modelled by `truthy` / `jsOr`.  Wall-clock time is an explicit `now`
parameter standing for `new Date()` / SQL `datetime('now')`, in abstract
units.
-/

namespace STEmail

/-- A stored email record.  Superset of the fields used across the variants:
`part_002`-style records have no `size`/`truncated` (left at defaults there),
`part_003` and the streaming `server.js` variant set them explicitly. -/
structure Email where
  id : Nat
  to_email : String
  from_email : String
  subject : String
  body : String
  html_body : String
  timestamp : Nat
  size : Nat
  truncated : Bool
  deriving Repr, DecidableEq

/-- In-memory store of the server variants: `let emails = []; let emailId = 1;`. -/
structure ServerState where
  emails : List Email
  emailId : Nat
  deriving Repr, DecidableEq

/-- The initial state of every in-memory variant. -/
def initState : ServerState := { emails := [], emailId := 1 }

/-- HTTP response abstraction: status code, whether the JSON body carries
`success: true`, and the `emailId` field when present. -/
structure Resp where
  status : Nat
  success : Bool
  emailId : Option Nat
  deriving Repr, DecidableEq

/-- JS truthiness of a possibly-undefined string: `undefined` and `""` are falsy. -/
def truthy : Option String → Bool
  | none => false
  | some s => !(s == "")

/-- JS `!x` on a possibly-undefined string. -/
def jsFalsy (o : Option String) : Bool := !(truthy o)

/-- JS `x || d` where `x` may be `undefined` and the result is a string. -/
def jsOr : Option String → String → String
  | none, d => d
  | some s, d => if s == "" then d else s

/-- JS `x || y` where both sides may be `undefined`. -/
def jsOrO : Option String → Option String → Option String
  | none, b => b
  | some s, b => if s == "" then b else some s

/-- JS `s.substring(0, n)` on a string (character-level model). -/
def strTake (s : String) (n : Nat) : String := String.mk (s.data.take n)

/-- JS `s.includes(sub)`: substring containment. -/
def strIncludes (s sub : String) : Bool := decide (sub.data <:+: s.data)

/-- Webhook request payload: the union of the object fields the variants'
handlers inspect.  JS keys that are not Lean identifiers are renamed:
`to` ↦ `to_`, `from` ↦ `from_`, `body-plain` ↦ `bodyPlain`, `body-html` ↦ `bodyHtml`,
`stripped-text` ↦ `strippedText`, `stripped-html` ↦ `strippedHtml`,
`event-data` ↦ `eventData`.  A field that the sender did not include is
`none` (JS `undefined`). -/
structure Envelope where
  to_ : Option String := none
  from_ : Option String := none
  deriving Repr, DecidableEq

structure Headers where
  subject : Option String := none
  deriving Repr, DecidableEq

structure MsgInfo where
  recipients : List String := []
  headersFrom : Option String := none
  headersSubject : Option String := none
  deriving Repr, DecidableEq

structure EventData where
  event : Option String := none
  message : Option MsgInfo := none
  deriving Repr, DecidableEq

structure Payload where
  to_ : Option String := none
  from_ : Option String := none
  recipient : Option String := none
  sender : Option String := none
  subject : Option String := none
  text : Option String := none
  html : Option String := none
  body : Option String := none
  plain : Option String := none
  toEmail : Option String := none
  fromEmail : Option String := none
  bodyPlain : Option String := none
  bodyHtml : Option String := none
  strippedText : Option String := none
  strippedHtml : Option String := none
  envelope : Option Envelope := none
  headers : Option Headers := none
  eventData : Option EventData := none
  deriving Repr, DecidableEq

/-- A webhook request body is either a parsed object or a raw text body
(the raw-MIME case of the variants that mount `express.text`). -/
inductive ReqBody where
  | obj (p : Payload)
  | str (s : String)
  deriving Repr, DecidableEq

/-- Result of `mailparser.simpleParser` on a raw MIME body, as the handlers
consume it (`parsed.to?.text`, `parsed.from?.text`, `parsed.subject`,
`parsed.text`, `parsed.html`).  `simpleParser` is an external library, so
handlers take the parse outcome as a parameter; `none` stands for the parse
throwing (the handlers catch it and fall through with no fields assigned). -/
structure ParsedMime where
  to_ : Option String := none
  from_ : Option String := none
  subject : Option String := none
  text : Option String := none
  html : Option String := none
  deriving Repr, DecidableEq

/-- Payload of `POST /api/simulate-email`: `{ toEmail, fromEmail, subject, body }`. -/
structure SimPayload where
  toEmail : Option String := none
  fromEmail : Option String := none
  subject : Option String := none
  body : Option String := none
  deriving Repr, DecidableEq

/-! ## `src/backend/server.js` (streaming-parser variant): simulate, webhook, listing -/

/-- `POST /api/simulate-email` of `src/backend/server.js` (identical logic in
`part_001`/`part_002`/`part_003` except for the default sender string in
`part_000`-style variants): 400 when `toEmail` is falsy, otherwise push
`{ id: emailId++, to_email, from_email: fromEmail || default, ... }`. -/
def srvSimulate (p : SimPayload) (now : Nat) (st : ServerState) : Resp × ServerState :=
  if jsFalsy p.toEmail then
    ({ status := 400, success := false, emailId := none }, st)
  else
    let newEmail : Email := {
      id := st.emailId,
      to_email := p.toEmail.getD "",
      from_email := jsOr p.fromEmail "test@shorttermemail.com",
      subject := jsOr p.subject "Test Email",
      body := jsOr p.body "This is a test email body.",
      html_body := "",
      timestamp := now,
      size := 0,
      truncated := false }
    ({ status := 200, success := true, emailId := some newEmail.id },
     { emails := st.emails ++ [newEmail], emailId := st.emailId + 1 })

/-- `POST /api/webhook/email` of `src/backend/server.js` (streaming variant):
only the Mailgun shape is recognized (`data.recipient` truthy); everything
stored is marked `truncated: true` unconditionally, with body and HTML cut
to 5000 characters and the subject to 200. -/
def srvWebhook (p : Payload) (now : Nat) (st : ServerState) : Resp × ServerState :=
  if truthy p.recipient then
    let toEmail := p.recipient
    let fromEmail := p.sender
    let subject := jsOr p.subject "No Subject"
    let body := jsOr p.bodyPlain ""
    let htmlBody := jsOr p.bodyHtml ""
    let newEmail : Email := {
      id := st.emailId,
      to_email := jsOr toEmail "unknown@shorttermemail.com",
      from_email := jsOr fromEmail "unknown@sender.com",
      subject := strTake (jsOr (some subject) "No Subject") 200,
      body := strTake (jsOr (some body) "") 5000,
      html_body := strTake (jsOr (some htmlBody) "") 5000,
      timestamp := now,
      size := body.length + htmlBody.length,
      truncated := true }
    ({ status := 200, success := true, emailId := some newEmail.id },
     { emails := st.emails ++ [newEmail], emailId := st.emailId + 1 })
  else
    ({ status := 200, success := true, emailId := none }, st)

/-- `GET /api/emails/:email` of `src/backend/server.js` (same body in
`part_001`/`part_002`/`part_003`): `emails.filter(e => e.to_email === email)`,
no limit, no reordering. -/
def apiEmailsRoute (st : ServerState) (email : String) : List Email :=
  st.emails.filter (fun e => e.to_email == email)

/-! ## Address extraction (`part_001`, `extractEmail`)

JS: `const match = emailString.match(/<([^>]+)>/); return match ? match[1] : emailString;`
with a leading `if (!emailString) return ''` guard.  The regex finds the
leftmost `<`, followed by at least one non-`>` character, followed by `>`;
the capture is everything between that `<` and the first `>` after it. -/

/-- Leftmost match of the regex `<([^>]+)>` over a character list, returning
the capture group when a match exists. -/
def firstCapture : List Char → Option (List Char)
  | [] => none
  | c :: rest =>
    if c = '<' then
      let pre := rest.takeWhile (fun d => !(d == '>'))
      let suf := rest.dropWhile (fun d => !(d == '>'))
      if pre.isEmpty || suf.isEmpty then firstCapture rest else some pre
    else firstCapture rest

/-- `extractEmail` of `part_001`: reduce `"Name <addr>"` to `"addr"`, leave
anything without a regex match unchanged.  (The JS `if (!emailString) return ''`
guard coincides with the no-match case for the empty string.) -/
def extractEmail (emailString : String) : String :=
  match firstCapture emailString.data with
  | some cap => String.mk cap
  | none => emailString

/-- `extractEmail` applied to a possibly-undefined local, as `part_001` does:
`extractEmail(undefined)` hits the `!emailString` guard and returns `''`. -/
def extractEmailOpt : Option String → String
  | none => ""
  | some s => extractEmail s

/-! ## `src/unnamed/part_001`: webhook with format sniffing and address extraction -/

/-- The local variables `toEmail, fromEmail, subject, body, htmlBody` of a
webhook handler after the format-sniffing `if/else` chain; `none` means the
variable was never assigned (JS `undefined`). -/
structure Locals where
  toEmail : Option String := none
  fromEmail : Option String := none
  subject : Option String := none
  body : Option String := none
  htmlBody : Option String := none
  deriving Repr, DecidableEq

/-- The format-sniffing chain of `part_001`'s `POST /api/webhook/email`:
Mailgun event JSON, then Mailgun route form fields, then raw MIME (SendGrid),
then generic JSON; `none` is the final `else` (unrecognized format, early
success return).  An entered branch whose inner condition fails (event not
`delivered`, or MIME parse throwing) leaves all locals unassigned. -/
def p1Branch : ReqBody → Option ParsedMime → Option Locals
  | .obj p, _ =>
    if p.eventData.isSome then
      match p.eventData with
      | some ed =>
        if ed.event == some "delivered" && ed.message.isSome then
          match ed.message with
          | some m =>
            let fromEmail := jsOr m.headersFrom ""
            let subject := jsOr m.headersSubject "No Subject"
            some { toEmail := some (jsOr m.recipients.head? ""),
                   fromEmail := some fromEmail,
                   subject := some subject,
                   body := some ("Email delivered from " ++ fromEmail ++
                                 " with subject: " ++ subject),
                   htmlBody := some "" }
          | none => some {}
        else some {}
      | none => some {}
    else if truthy p.recipient then
      some { toEmail := p.recipient,
             fromEmail := p.sender,
             subject := some (jsOr p.subject "No Subject"),
             body := some (jsOr p.bodyPlain (jsOr p.strippedText (jsOr p.body "No content"))),
             htmlBody := some (jsOr p.bodyHtml (jsOr p.strippedHtml "")) }
    else if truthy p.to_ && truthy p.from_ then
      some { toEmail := p.to_,
             fromEmail := p.from_,
             subject := some (jsOr p.subject "No Subject"),
             body := some (jsOr p.text (jsOr p.html "No content")),
             htmlBody := some (jsOr p.html "") }
    else none
  | .str s, mime =>
    if strIncludes s "From:" && strIncludes s "To:" then
      match mime with
      | some pm =>
        some { toEmail := some (jsOr pm.to_ ""),
               fromEmail := some (jsOr pm.from_ ""),
               subject := some (jsOr pm.subject "No Subject"),
               body := some (jsOr pm.text (jsOr pm.html "No content")),
               htmlBody := some (jsOr pm.html "") }
      | none => some {}
    else none

/-- `POST /api/webhook/email` of `part_001`: after format sniffing, early
success returns for unrecognized format or missing recipient; otherwise
`extractEmail` is applied to recipient and sender before storage.  Every
return path (the `catch` included) is HTTP 200 with `success: true`. -/
def p1Webhook (b : ReqBody) (mime : Option ParsedMime) (now : Nat)
    (st : ServerState) : Resp × ServerState :=
  match p1Branch b mime with
  | none => ({ status := 200, success := true, emailId := none }, st)
  | some loc =>
    if jsFalsy loc.toEmail then
      ({ status := 200, success := true, emailId := none }, st)
    else
      let toEmail := extractEmailOpt loc.toEmail
      let fromEmail := extractEmailOpt loc.fromEmail
      let newEmail : Email := {
        id := st.emailId,
        to_email := toEmail,
        from_email := jsOr (some fromEmail) "unknown@sender.com",
        subject := loc.subject.getD "",
        body := loc.body.getD "",
        html_body := loc.htmlBody.getD "",
        timestamp := now,
        size := 0,
        truncated := false }
      ({ status := 200, success := true, emailId := some newEmail.id },
       { emails := st.emails ++ [newEmail], emailId := st.emailId + 1 })

/-! ## `src/unnamed/part_002`: webhook with 400 on missing recipient, no extraction -/

/-- The format-sniffing chain of `part_002`'s `POST /api/webhook/email`:
SendGrid JSON (`to && from`), Mailgun (`recipient && sender`), CloudMailin
(`envelope && headers`), then a generic fallback that ORs the synonymous
field names.  Unlike `part_001` there is no final unrecognized-format early
return: the generic branch always runs. -/
def p2Locals (p : Payload) : Locals :=
  if truthy p.to_ && truthy p.from_ then
    { toEmail := p.to_,
      fromEmail := p.from_,
      subject := some (jsOr p.subject "No Subject"),
      body := some (jsOr p.text (jsOr p.html "No content")),
      htmlBody := some (jsOr p.html "") }
  else if truthy p.recipient && truthy p.sender then
    { toEmail := p.recipient,
      fromEmail := p.sender,
      subject := some (jsOr p.subject "No Subject"),
      body := some (jsOr p.bodyPlain (jsOr p.bodyHtml "No content")),
      htmlBody := some (jsOr p.bodyHtml "") }
  else
    match p.envelope, p.headers with
    | some env, some hdr =>
      { toEmail := env.to_,
        fromEmail := env.from_,
        subject := some (jsOr hdr.subject "No Subject"),
        body := some (jsOr p.plain (jsOr p.html "No content")),
        htmlBody := some (jsOr p.html "") }
    | _, _ =>
      { toEmail := jsOrO p.to_ (jsOrO p.toEmail p.recipient),
        fromEmail := jsOrO p.from_ (jsOrO p.fromEmail p.sender),
        subject := some (jsOr p.subject "No Subject"),
        body := some (jsOr p.body (jsOr p.text (jsOr p.plain (jsOr p.html "No content")))),
        htmlBody := some (jsOr p.html "") }

/-- `POST /api/webhook/email` of `part_002`: responds **400** when no
recipient could be extracted, stores the raw (unextracted) recipient and
sender otherwise, and 200 with `success: true` on store. -/
def p2Webhook (p : Payload) (now : Nat) (st : ServerState) : Resp × ServerState :=
  let loc := p2Locals p
  if jsFalsy loc.toEmail then
    ({ status := 400, success := false, emailId := none }, st)
  else
    let newEmail : Email := {
      id := st.emailId,
      to_email := loc.toEmail.getD "",
      from_email := jsOr loc.fromEmail "unknown@sender.com",
      subject := loc.subject.getD "",
      body := loc.body.getD "",
      html_body := loc.htmlBody.getD "",
      timestamp := now,
      size := 0,
      truncated := false }
    ({ status := 200, success := true, emailId := some newEmail.id },
     { emails := st.emails ++ [newEmail], emailId := st.emailId + 1 })

/-! ## `src/unnamed/part_003`: webhook with `MAX_CONTENT` truncation -/

/-- The truncation marker appended to an over-limit plain-text body in
`part_003`: `'\n\n...[Email truncated - too large]'`. -/
def truncMarker : String := "\n\n...[Email truncated - too large]"

/-- The truncation marker appended to an over-limit HTML body in `part_003`. -/
def truncMarkerHtml : String := "<p>...[Email truncated - too large]</p>"

/-- `fullBody` of `part_003`'s Mailgun branch:
`req.body['body-plain'] || req.body['stripped-text'] || ''`. -/
def p3FullBody (p : Payload) : String := jsOr p.bodyPlain (jsOr p.strippedText "")

/-- `fullHtml` of `part_003`'s Mailgun branch:
`req.body['body-html'] || req.body['stripped-html'] || ''`. -/
def p3FullHtml (p : Payload) : String := jsOr p.bodyHtml (jsOr p.strippedHtml "")

/-- The format-sniffing chain of `part_003`'s `POST /api/webhook/email`.
The Mailgun branch truncates bodies longer than `MAX_CONTENT = 10000`
to their first 10000 characters **plus a truncation marker**. -/
def p3Branch : ReqBody → Option ParsedMime → Option Locals
  | .obj p, _ =>
    if truthy p.recipient then
      let fullBody := p3FullBody p
      let fullHtml := p3FullHtml p
      some { toEmail := p.recipient,
             fromEmail := p.sender,
             subject := some (jsOr p.subject "No Subject"),
             body := some (if fullBody.length > 10000 then
                             strTake fullBody 10000 ++ truncMarker
                           else fullBody),
             htmlBody := some (if fullHtml.length > 10000 then
                                 strTake fullHtml 10000 ++ truncMarkerHtml
                               else fullHtml) }
    else if truthy p.to_ && truthy p.from_ then
      some { toEmail := p.to_,
             fromEmail := p.from_,
             subject := some (jsOr p.subject "No Subject"),
             body := some (jsOr p.text (jsOr p.html "No content")),
             htmlBody := some (jsOr p.html "") }
    else none
  | .str s, mime =>
    if strIncludes s "From:" && strIncludes s "To:" then
      match mime with
      | some pm =>
        some { toEmail := some (jsOr pm.to_ ""),
               fromEmail := some (jsOr pm.from_ ""),
               subject := some (jsOr pm.subject "No Subject"),
               body := some (jsOr pm.text (jsOr pm.html "No content")),
               htmlBody := some (jsOr pm.html "") }
      | none => some {}
    else none

/-- `POST /api/webhook/email` of `part_003`: on store, the subject is cut to
200 characters and body/HTML to 20000; `size` records the pre-cut lengths and
`truncated` is `body.length >= 10000 || htmlBody.length >= 10000` evaluated
on the post-marker local values.  Unrecognized formats and missing
recipients are acknowledged with 200 `success: true`. -/
def p3Webhook (b : ReqBody) (mime : Option ParsedMime) (now : Nat)
    (st : ServerState) : Resp × ServerState :=
  match p3Branch b mime with
  | none => ({ status := 200, success := true, emailId := none }, st)
  | some loc =>
    if jsFalsy loc.toEmail then
      ({ status := 200, success := true, emailId := none }, st)
    else
      let body := loc.body.getD ""
      let htmlBody := loc.htmlBody.getD ""
      let newEmail : Email := {
        id := st.emailId,
        to_email := loc.toEmail.getD "",
        from_email := jsOr loc.fromEmail "unknown@sender.com",
        subject := strTake (loc.subject.getD "") 200,
        body := strTake body 20000,
        html_body := strTake htmlBody 20000,
        timestamp := now,
        size := body.length + htmlBody.length,
        truncated := decide (body.length ≥ 10000) || decide (htmlBody.length ≥ 10000) }
      ({ status := 200, success := true, emailId := some newEmail.id },
       { emails := st.emails ++ [newEmail], emailId := st.emailId + 1 })

/-! ## `src/unnamed/part_000`: the SQLite-backed `EmailService`

The `emails` table is modelled as a `List Email` in insertion order;
`timestamp` is a number with SQL `datetime` comparison as `<` on `Nat`.
`datetime('now', '-H hours')` is `now - H` in abstract hour units. -/

/-- The ordering relation of `ORDER BY timestamp DESC`: row `a` comes before
row `b` when `b.timestamp ≤ a.timestamp`. -/
def olderLe (a b : Email) : Prop := b.timestamp ≤ a.timestamp

instance : DecidableRel olderLe := fun a b => Nat.decLe b.timestamp a.timestamp

instance : IsTotal Email olderLe := ⟨fun a b => Nat.le_total b.timestamp a.timestamp⟩

instance : IsTrans Email olderLe := ⟨fun _ _ _ hab hbc => Nat.le_trans hbc hab⟩

/-- `EmailService.getEmailsForAddress` of `part_000`:
`SELECT * FROM emails WHERE to_email = ? ORDER BY timestamp DESC LIMIT ?`
(the route calls it with the default `limit = 50`).  The `ORDER BY` is
modelled by sorting the filtered rows with `olderLe`. -/
def getEmailsForAddress (rows : List Email) (emailAddress : String) (limit : Nat) : List Email :=
  (List.insertionSort olderLe (rows.filter (fun r => r.to_email == emailAddress))).take limit

/-- `EmailService.deleteEmail` of `part_000`:
`DELETE FROM emails WHERE id = ?`, resolving `this.changes > 0`. -/
def deleteEmail (rows : List Email) (emailId : Nat) : List Email × Bool :=
  let remaining := rows.filter (fun r => !(r.id == emailId))
  (remaining, decide (rows.length - remaining.length > 0))

/-- `DELETE /api/email/:id` of `part_000`: 200 on `deleted`, 404 otherwise. -/
def deleteRoute (rows : List Email) (emailId : Nat) : Nat × List Email :=
  let result := deleteEmail rows emailId
  (if result.2 then 200 else 404, result.1)

/-- `EmailService.cleanupOldEmails` of `part_000`:
`DELETE FROM emails WHERE timestamp < datetime('now', '-H hours')`,
resolving `this.changes` (the number of rows removed). -/
def cleanupOldEmails (rows : List Email) (now : Nat) (hours : Nat) : List Email × Nat :=
  let remaining := rows.filter (fun r => !(decide (r.timestamp < now - hours)))
  (remaining, rows.length - remaining.length)

/-- JS `req.body.hours || 24` (note `0` is falsy). -/
def jsOrNat : Option Nat → Nat → Nat
  | none, d => d
  | some n, d => if n == 0 then d else n

/-- `POST /api/cleanup` of `part_000`: `hours = req.body.hours || 24`. -/
def cleanupRoute (rows : List Email) (now : Nat) (hoursOpt : Option Nat) : List Email × Nat :=
  cleanupOldEmails rows now (jsOrNat hoursOpt 24)

/-! ## Multi-request runs over the in-memory store (`src/backend/server.js`) -/

/-- One inbound insert-capable request against the streaming `server.js`
variant: a simulate-email call or a webhook delivery, each carrying its
arrival time. -/
inductive SrvOp where
  | simulate (p : SimPayload) (now : Nat)
  | webhook (p : Payload) (now : Nat)
  deriving Repr

/-- State transition of one request. -/
def srvStep (st : ServerState) : SrvOp → ServerState
  | .simulate p now => (srvSimulate p now st).2
  | .webhook p now => (srvWebhook p now st).2

/-- Run a sequence of requests against the freshly started server. -/
def srvRun (ops : List SrvOp) : ServerState := ops.foldl srvStep initState

/-- The stored ids in insertion order. -/
def idsOf (st : ServerState) : List Nat := st.emails.map (fun e => e.id)

/-- Store invariant: ids strictly increase along the list and are all below
the `emailId` counter. -/
def srvInv (st : ServerState) : Prop :=
  (idsOf st).Pairwise (· < ·) ∧ ∀ i ∈ idsOf st, i < st.emailId

/-! ## Concrete test inputs -/

/-- Store state after two successful simulate-email inserts for `a@b.com`,
arriving at times 1 and 2. -/
def c2State : ServerState :=
  (srvSimulate { toEmail := some "a@b.com" } 2
    ((srvSimulate { toEmail := some "a@b.com" } 1 initState).2)).2

/-- The record stored by the first insert of `c2State`. -/
def c2Email1 : Email :=
  { id := 1, to_email := "a@b.com", from_email := "test@shorttermemail.com",
    subject := "Test Email", body := "This is a test email body.",
    html_body := "", timestamp := 1, size := 0, truncated := false }

/-- The record stored by the second insert of `c2State`. -/
def c2Email2 : Email :=
  { id := 2, to_email := "a@b.com", from_email := "test@shorttermemail.com",
    subject := "Test Email", body := "This is a test email body.",
    html_body := "", timestamp := 2, size := 0, truncated := false }

/-- A SendGrid-shaped JSON webhook payload whose recipient carries a display
name: `{to: "Jane Doe <jane@x.com>", from: "c@d.com"}`. -/
def janePayload : Payload :=
  { to_ := some "Jane Doe <jane@x.com>", from_ := some "c@d.com" }

/-- A Mailgun-shaped webhook payload whose recipient carries a display name. -/
def mailgunJane : Payload :=
  { recipient := some "Jane Doe <jane@x.com>", sender := some "c@d.com" }

/-- A plain-text body of 10001 characters, one over `part_003`'s
`MAX_CONTENT = 10000`. -/
def bigBody : String := String.mk (List.replicate 10001 'a')

/-- A Mailgun webhook payload carrying the over-limit body. -/
def bigPayload : Payload := { recipient := some "a@b.com", bodyPlain := some bigBody }

/-- A fully specified simulate-email submission. -/
def simSubmission : SimPayload :=
  { toEmail := some "w@x.com", fromEmail := some "f@g.com",
    subject := some "Hello", body := some "Body" }

/-- A Mailgun webhook payload with a 2-character body, far below every cap. -/
def shortPayload : Payload := { recipient := some "x@y.com", bodyPlain := some "hi" }

/-- The record a successful `srvSimulate` pushes (named for use in proofs). -/
def simStoredEmail (p : SimPayload) (now : Nat) (st : ServerState) : Email :=
  { id := st.emailId,
    to_email := p.toEmail.getD "",
    from_email := jsOr p.fromEmail "test@shorttermemail.com",
    subject := jsOr p.subject "Test Email",
    body := jsOr p.body "This is a test email body.",
    html_body := "",
    timestamp := now,
    size := 0,
    truncated := false }

/-! ## String helper lemmas -/

lemma strTake_length (s : String) (n : Nat) : (strTake s n).length = min n s.length := by
  cases s with
  | mk data =>
    show (data.take n).length = min n data.length
    exact List.length_take n data

lemma strTake_of_le {s : String} {n : Nat} (h : s.length ≤ n) : strTake s n = s := by
  cases s with
  | mk data => exact congrArg String.mk (List.take_of_length_le h)

lemma jsOr_some_of_ne {s : String} (d : String) (h : s ≠ "") : jsOr (some s) d = s := by
  simp [jsOr, h]

lemma jsOr_some_empty (s : String) : jsOr (some s) "" = s := by
  by_cases h : s = "" <;> simp [jsOr, h]

lemma bigBody_length : bigBody.length = 10001 := List.length_replicate 10001 'a'

lemma bigBody_ne_empty : bigBody ≠ "" := by
  intro h
  have hlen := congrArg String.length h
  rw [bigBody_length] at hlen
  exact absurd hlen (by decide)

lemma p3FullBody_bigPayload : p3FullBody bigPayload = bigBody :=
  jsOr_some_of_ne (jsOr none "") bigBody_ne_empty

/-- Evaluation of a successful simulate-email request. -/
lemma srvSimulate_truthy {p : SimPayload} (h : truthy p.toEmail = true)
    (now : Nat) (st : ServerState) :
    srvSimulate p now st =
      ({ status := 200, success := true, emailId := some st.emailId },
       { emails := st.emails ++ [simStoredEmail p now st],
         emailId := st.emailId + 1 }) := by
  have h' : jsFalsy p.toEmail = false := by
    rw [jsFalsy, h]
    rfl
  unfold srvSimulate
  rw [h']
  rfl

/-! ## Invariant lemmas -/

lemma srvInv_init : srvInv initState := by
  constructor <;> simp [idsOf, initState]

lemma srvInv_append {st : ServerState} (h : srvInv st) (e : Email)
    (he : e.id = st.emailId) :
    srvInv { emails := st.emails ++ [e], emailId := st.emailId + 1 } := by
  obtain ⟨hp, hb⟩ := h
  have hids : idsOf { emails := st.emails ++ [e], emailId := st.emailId + 1 } =
      idsOf st ++ [e.id] := by
    simp [idsOf]
  constructor
  · rw [hids, List.pairwise_append]
    refine ⟨hp, List.pairwise_singleton _ _, ?_⟩
    intro a ha b hbm
    rw [List.mem_singleton] at hbm
    subst hbm
    rw [he]
    exact hb a ha
  · intro i hi
    rw [hids, List.mem_append, List.mem_singleton] at hi
    rcases hi with hi | hi
    · exact Nat.lt_trans (hb i hi) (Nat.lt_succ_self _)
    · subst hi
      rw [he]
      exact Nat.lt_succ_self _

lemma srvStep_inv {st : ServerState} (h : srvInv st) (op : SrvOp) :
    srvInv (srvStep st op) := by
  cases op with
  | simulate p now =>
    show srvInv (srvSimulate p now st).2
    unfold srvSimulate
    split
    · exact h
    · exact srvInv_append h _ rfl
  | webhook p now =>
    show srvInv (srvWebhook p now st).2
    unfold srvWebhook
    split
    · exact srvInv_append h _ rfl
    · exact h

/-- The regex `<([^>]+)>` has no match in a string with no `<` at all. -/
lemma firstCapture_eq_none_of_no_lt {l : List Char} (h : '<' ∉ l) :
    firstCapture l = none := by
  induction l with
  | nil => rfl
  | cons c rest ih =>
    have hc : ¬ c = '<' := fun hc => h (hc ▸ List.mem_cons_self c rest)
    rw [firstCapture, if_neg hc]
    exact ih (fun hm => h (List.mem_cons_of_mem c hm))

lemma srvRun_inv (ops : List SrvOp) : srvInv (srvRun ops) := by
  suffices h : ∀ st, srvInv st → srvInv (ops.foldl srvStep st) from h _ srvInv_init
  induction ops with
  | nil => intro st h; exact h
  | cons op rest ih => intro st h; exact ih _ (srvStep_inv h op)

/-- C3: for every sequence of successful inserts (via simulate-email or the
webhook), the ids assigned to stored messages are unique and strictly
increasing in insertion order, regardless of which recipient each message is
addressed to.  Stated over arbitrary request sequences against the freshly
started in-memory server: the id list is pairwise strictly increasing (hence
also duplicate-free). -/
theorem ids_strictly_increasing_and_unique (ops : List SrvOp) :
    (idsOf (srvRun ops)).Pairwise (· < ·) ∧ (idsOf (srvRun ops)).Nodup :=
  ⟨(srvRun_inv ops).1, (srvRun_inv ops).1.imp Nat.ne_of_lt⟩

/-- C1 counterexample: the `part_002` webhook handler answers the
unrecognized (but size-within-ceiling) payload `{foo:"bar"}` — a payload
carrying none of the recognized fields — with HTTP 400 and no
`success: true`, contradicting the claim that no such request receives a
4xx status. -/
theorem part002_webhook_400_on_unrecognized :
    (p2Webhook {} 0 initState).1.status = 400 ∧
    (p2Webhook {} 0 initState).1.success = false := by
  constructor <;> rfl

/-- C1 (amended): the always-acknowledge behaviour holds for the `part_001`
webhook handler — every payload, including unrecognized formats, failed MIME
parses and missing recipients, is answered HTTP 200 with `success: true` —
while the `part_002` handler instead answers HTTP 400 whenever its field
sniffing yields no recipient. -/
theorem webhook_always_ack_part001_vs_400_part002 :
    (∀ (b : ReqBody) (mime : Option ParsedMime) (now : Nat) (st : ServerState),
      (p1Webhook b mime now st).1.status = 200 ∧
      (p1Webhook b mime now st).1.success = true) ∧
    (∀ (p : Payload) (now : Nat) (st : ServerState),
      jsFalsy (p2Locals p).toEmail = true →
      (p2Webhook p now st).1.status = 400) := by
  constructor
  · intro b mime now st
    unfold p1Webhook
    split
    · exact ⟨rfl, rfl⟩
    · split
      · exact ⟨rfl, rfl⟩
      · exact ⟨rfl, rfl⟩
  · intro p now st h
    unfold p2Webhook
    simp only [h]
    rfl

/-- C1 witness: the amended theorem at concrete inputs — an empty JSON
object through `part_001` is acknowledged 200, and through `part_002` is
rejected 400. -/
theorem webhook_ack_witness :
    (p1Webhook (ReqBody.obj {}) none 0 initState).1.status = 200 ∧
    (p2Webhook {} 5 initState).1.status = 400 :=
  ⟨(webhook_always_ack_part001_vs_400_part002.1 (ReqBody.obj {}) none 0 initState).1,
   webhook_always_ack_part001_vs_400_part002.2 {} 5 initState (by decide)⟩

/-- C2 counterexample: after two simulate inserts for `a@b.com` at times 1
then 2, the in-memory `GET /api/emails/:email` route of
`src/backend/server.js` returns them in insertion order — timestamps
`[1, 2]`, oldest first — refuting the claim that listing always returns
messages newest-first. -/
theorem route_not_newest_first :
    (apiEmailsRoute c2State "a@b.com").map (fun e => e.timestamp) = [1, 2] ∧
    ¬ List.Sorted olderLe (apiEmailsRoute c2State "a@b.com") := by
  constructor
  · rfl
  · intro h
    have hroute : apiEmailsRoute c2State "a@b.com" = [c2Email1, c2Email2] := by rfl
    rw [hroute] at h
    have h12 : olderLe c2Email1 c2Email2 :=
      List.rel_of_sorted_cons h _ (List.mem_singleton.mpr rfl)
    exact absurd h12 (by decide)

/-- C2 (amended): the SQL-backed `getEmailsForAddress` of `part_000` indeed
returns at most `limit` records (the route passes the default 50), all with
exactly the queried recipient, ordered by descending receipt time; but the
in-memory `GET /api/emails/:email` route of `server.js` instead returns
every exact match, in insertion (oldest-first) order, with no cap. -/
theorem listByRecipient_cap_and_order :
    (∀ (rows : List Email) (addr : String) (limit : Nat),
      (getEmailsForAddress rows addr limit).length ≤ limit ∧
      (getEmailsForAddress rows addr limit).all (fun e => e.to_email == addr) = true ∧
      List.Sorted olderLe (getEmailsForAddress rows addr limit)) ∧
    (∀ (st : ServerState) (email : String),
      List.Sublist (apiEmailsRoute st email) st.emails ∧
      ∀ e, e ∈ apiEmailsRoute st email ↔ e ∈ st.emails ∧ e.to_email = email) := by
  constructor
  · intro rows addr limit
    refine ⟨List.length_take_le _ _, ?_, ?_⟩
    · rw [List.all_eq_true]
      intro e he
      have h1 : e ∈ List.insertionSort olderLe
          (rows.filter (fun r => r.to_email == addr)) :=
        List.mem_of_mem_take he
      have h2 : e ∈ rows.filter (fun r => r.to_email == addr) :=
        (List.mem_insertionSort olderLe).mp h1
      exact (List.mem_filter.mp h2).2
    · exact (List.sorted_insertionSort olderLe _).sublist (List.take_sublist _ _)
  · intro st email
    refine ⟨List.filter_sublist _, ?_⟩
    intro e
    rw [apiEmailsRoute, List.mem_filter]
    simp

/-- C4 counterexample: `part_002` stores the raw recipient value without
address extraction — `{to: "Jane Doe <jane@x.com>", from: "c@d.com"}` is
stored with `to_email = "Jane Doe <jane@x.com>"`, not the bracketed
`"jane@x.com"` the claim requires. -/
theorem part002_stores_raw_recipient :
    ((p2Webhook janePayload 0 initState).2.emails.map (fun e => e.to_email)) =
      ["Jane Doe <jane@x.com>"] ∧
    extractEmail "Jane Doe <jane@x.com>" ≠ "Jane Doe <jane@x.com>" := by
  constructor
  · rfl
  · decide

/-- C4 (amended): address extraction behaves as specified —
`"Jane Doe <jane@x.com>"` reduces to `"jane@x.com"` and a value without an
angle-bracket match is unchanged — and the `part_001` webhook handler does
apply it to recipient and sender of every stored message; the `part_002`
handler, however, stores raw values (see the counterexample). -/
theorem extractEmail_spec_and_part001_applies :
    extractEmail "Jane Doe <jane@x.com>" = "jane@x.com" ∧
    (∀ s : String, '<' ∉ s.data → extractEmail s = s) ∧
    (∀ (b : ReqBody) (mime : Option ParsedMime) (now : Nat) (st : ServerState)
      (loc : Locals), p1Branch b mime = some loc → truthy loc.toEmail = true →
      ∃ e, (p1Webhook b mime now st).2.emails = st.emails ++ [e] ∧
        e.to_email = extractEmailOpt loc.toEmail ∧
        e.from_email = jsOr (some (extractEmailOpt loc.fromEmail)) "unknown@sender.com") := by
  refine ⟨by decide, ?_, ?_⟩
  · intro s hs
    have hnone : firstCapture s.data = none := firstCapture_eq_none_of_no_lt hs
    rw [extractEmail, hnone]
  · intro b mime now st loc hbr htr
    unfold p1Webhook
    rw [hbr]
    simp only [jsFalsy, htr, Bool.not_true, Bool.false_eq_true, if_neg, ite_false]
    exact ⟨_, rfl, rfl, rfl⟩

/-- C4 witness: the amended theorem at concrete inputs — a bracket-free
address is unchanged, and a Mailgun webhook through `part_001` with a
display-name recipient is stored in extracted form. -/
theorem extractEmail_witness :
    extractEmail "jane@x.com" = "jane@x.com" ∧
    (∃ e, (p1Webhook (ReqBody.obj mailgunJane) none 0 initState).2.emails =
        initState.emails ++ [e] ∧
      e.to_email = extractEmailOpt (some "Jane Doe <jane@x.com>") ∧
      e.from_email = jsOr (some (extractEmailOpt (some "c@d.com"))) "unknown@sender.com") :=
  ⟨extractEmail_spec_and_part001_applies.2.1 "jane@x.com" (by decide),
   extractEmail_spec_and_part001_applies.2.2 (ReqBody.obj mailgunJane) none 0 initState
     { toEmail := some "Jane Doe <jane@x.com>", fromEmail := some "c@d.com",
       subject := some "No Subject", body := some "No content", htmlBody := some "" }
     (by decide) (by decide)⟩

/-- Helper for C5: in `part_003`'s Mailgun branch, a plain-text body longer
than `MAX_CONTENT = 10000` is stored as its first 10000 characters plus the
34-character truncation marker (total length 10034), with `truncated = true`. -/
lemma p3_mailgun_truncation {p : Payload} (hrec : truthy p.recipient = true)
    (hlen : (p3FullBody p).length > 10000) (mime : Option ParsedMime)
    (now : Nat) (st : ServerState) :
    ∃ e, (p3Webhook (ReqBody.obj p) mime now st).2.emails = st.emails ++ [e] ∧
      e.truncated = true ∧
      e.body = strTake (p3FullBody p) 10000 ++ truncMarker ∧
      e.body.length = 10034 := by
  have hbodylen : (strTake (p3FullBody p) 10000 ++ truncMarker).length = 10034 := by
    rw [String.length_append, strTake_length,
      Nat.min_eq_left (Nat.le_of_lt hlen)]
    decide
  have hbr : p3Branch (ReqBody.obj p) mime = some
      { toEmail := p.recipient, fromEmail := p.sender,
        subject := some (jsOr p.subject "No Subject"),
        body := some (strTake (p3FullBody p) 10000 ++ truncMarker),
        htmlBody := some (if (p3FullHtml p).length > 10000 then
            strTake (p3FullHtml p) 10000 ++ truncMarkerHtml
          else p3FullHtml p) } := by
    simp only [p3Branch, hrec, if_pos hlen, if_true]
  have hfalsy : jsFalsy p.recipient = false := by
    rw [jsFalsy, hrec]
    rfl
  unfold p3Webhook
  rw [hbr]
  simp only [hfalsy, Bool.false_eq_true, if_false, Option.getD_some]
  refine ⟨_, rfl, ?_, ?_, ?_⟩
  · show (decide ((strTake (p3FullBody p) 10000 ++ truncMarker).length ≥ 10000) ||
      decide _) = true
    rw [hbodylen]
    simp
  · show strTake (strTake (p3FullBody p) 10000 ++ truncMarker) 20000 = _
    exact strTake_of_le (by rw [hbodylen]; decide)
  · show (strTake (strTake (p3FullBody p) 10000 ++ truncMarker) 20000).length = 10034
    rw [strTake_of_le (by rw [hbodylen]; decide), hbodylen]

/-- C5 counterexample: a Mailgun webhook through `part_003` with a
10001-character body is stored with `truncated = true` but a body of length
10034 — the 10000-character cap plus the appended marker — so the stored
body length equals neither the `MAX_CONTENT = 10000` cap nor the 20000
storage cut. -/
theorem part003_stored_length_not_cap :
    ((p3Webhook (ReqBody.obj bigPayload) none 0 initState).2.emails.map
      (fun e => (e.truncated, e.body.length))) = [(true, 10034)] ∧
    (10034 : Nat) ≠ 10000 ∧ (10034 : Nat) ≠ 20000 := by
  have hlen : (p3FullBody bigPayload).length > 10000 := by
    rw [p3FullBody_bigPayload, bigBody_length]
    decide
  obtain ⟨e, he, htr, _, hblen⟩ :=
    p3_mailgun_truncation (p := bigPayload) (by decide) hlen none 0 initState
  rw [he]
  refine ⟨?_, by decide, by decide⟩
  show [(e.truncated, e.body.length)] = [(true, 10034)]
  rw [htr, hblen]

/-- C5 (amended): a webhook body exceeding `part_003`'s truncation threshold
`MAX_CONTENT = 10000` is stored with `truncated = true` and a body equal to
the first 10000 characters followed by the fixed truncation marker, so the
stored body length is 10034 = cap + 34, not the cap itself. -/
theorem part003_truncation_flag_and_marker :
    ∀ (p : Payload) (mime : Option ParsedMime) (now : Nat) (st : ServerState),
      truthy p.recipient = true → (p3FullBody p).length > 10000 →
      ∃ e, (p3Webhook (ReqBody.obj p) mime now st).2.emails = st.emails ++ [e] ∧
        e.truncated = true ∧
        e.body = strTake (p3FullBody p) 10000 ++ truncMarker ∧
        e.body.length = 10034 :=
  fun _ mime now st hrec hlen => p3_mailgun_truncation hrec hlen mime now st

/-- C5 witness: the amended theorem at the concrete 10001-character body. -/
theorem part003_truncation_witness :
    ∃ e, (p3Webhook (ReqBody.obj bigPayload) none 3 initState).2.emails =
        initState.emails ++ [e] ∧
      e.truncated = true ∧
      e.body = strTake (p3FullBody bigPayload) 10000 ++ truncMarker ∧
      e.body.length = 10034 :=
  part003_truncation_flag_and_marker bigPayload none 3 initState (by decide)
    (by rw [p3FullBody_bigPayload, bigBody_length]; decide)

/-- C6: a simulate-email submission with non-empty `toEmail`, `fromEmail`,
`subject` and `body` is answered with the freshly assigned id (the current
counter value), and listing that recipient afterwards contains a record with
exactly the submitted field values and that id. -/
theorem simulate_then_list_contains (p : SimPayload) (now : Nat) (st : ServerState)
    (t f s b : String)
    (ht : p.toEmail = some t) (htne : t ≠ "")
    (hf : p.fromEmail = some f) (hfne : f ≠ "")
    (hs : p.subject = some s) (hsne : s ≠ "")
    (hb : p.body = some b) (hbne : b ≠ "") :
    (srvSimulate p now st).1.status = 200 ∧
    (srvSimulate p now st).1.emailId = some st.emailId ∧
    ∃ e, e ∈ apiEmailsRoute (srvSimulate p now st).2 t ∧
      e.id = st.emailId ∧ e.to_email = t ∧ e.from_email = f ∧
      e.subject = s ∧ e.body = b := by
  have htruthy : truthy p.toEmail = true := by
    rw [ht]
    simp [truthy, htne]
  rw [srvSimulate_truthy htruthy]
  refine ⟨rfl, rfl, ?_⟩
  refine ⟨simStoredEmail p now st, ?_, rfl, ?_, ?_, ?_, ?_⟩
  · rw [apiEmailsRoute]
    refine List.mem_filter.mpr ⟨List.mem_append_right _ (List.mem_singleton.mpr rfl), ?_⟩
    show (p.toEmail.getD "" == t) = true
    rw [ht]
    simp
  · show p.toEmail.getD "" = t
    rw [ht]
    rfl
  · show jsOr p.fromEmail "test@shorttermemail.com" = f
    rw [hf]
    exact jsOr_some_of_ne _ hfne
  · show jsOr p.subject "Test Email" = s
    rw [hs]
    exact jsOr_some_of_ne _ hsne
  · show jsOr p.body "This is a test email body." = b
    rw [hb]
    exact jsOr_some_of_ne _ hbne

/-- C6 witness: the theorem at a fully specified concrete submission. -/
theorem simulate_then_list_witness :
    (srvSimulate simSubmission 7 initState).1.status = 200 ∧
    (srvSimulate simSubmission 7 initState).1.emailId = some initState.emailId ∧
    ∃ e, e ∈ apiEmailsRoute (srvSimulate simSubmission 7 initState).2 "w@x.com" ∧
      e.id = initState.emailId ∧ e.to_email = "w@x.com" ∧ e.from_email = "f@g.com" ∧
      e.subject = "Hello" ∧ e.body = "Body" :=
  simulate_then_list_contains simSubmission 7 initState "w@x.com" "f@g.com" "Hello" "Body"
    rfl (by decide) rfl (by decide) rfl (by decide) rfl (by decide)

/-- C7: `cleanupOldEmails` keeps exactly the rows whose timestamp is not
older than the cutoff, removes exactly those older, returns the removed
count, and the cleanup route defaults the duration to 24 hours. -/
theorem cleanup_removes_exactly_older (rows : List Email) (now hours : Nat) :
    (∀ e, e ∈ (cleanupOldEmails rows now hours).1 ↔
      (e ∈ rows ∧ ¬ e.timestamp < now - hours)) ∧
    (cleanupOldEmails rows now hours).2 =
      (rows.filter (fun r => decide (r.timestamp < now - hours))).length ∧
    cleanupRoute rows now none = cleanupOldEmails rows now 24 := by
  refine ⟨?_, ?_, rfl⟩
  · intro e
    show e ∈ rows.filter (fun r => !(decide (r.timestamp < now - hours))) ↔ _
    rw [List.mem_filter]
    simp
  · show rows.length -
        (rows.filter (fun r => !(decide (r.timestamp < now - hours)))).length = _
    have hsplit := @List.length_eq_length_filter_add Email rows
      (fun r : Email => decide (r.timestamp < now - hours))
    omega

/-- C8: `deleteEmail` returns `true` exactly when a row with the given id
exists; deleting the result again returns `false`; the delete route answers
404 exactly when no such row exists. -/
theorem deleteById_semantics (rows : List Email) (emailId : Nat) :
    ((deleteEmail rows emailId).2 = true ↔ ∃ r ∈ rows, r.id = emailId) ∧
    (deleteEmail (deleteEmail rows emailId).1 emailId).2 = false ∧
    ((deleteRoute rows emailId).1 = 404 ↔ ¬ ∃ r ∈ rows, r.id = emailId) := by
  have hiff : (deleteEmail rows emailId).2 = true ↔ ∃ r ∈ rows, r.id = emailId := by
    show decide (rows.length -
        (rows.filter (fun r => !(r.id == emailId))).length > 0) = true ↔ _
    rw [decide_eq_true_iff]
    show 0 < rows.length - (rows.filter (fun r => !(r.id == emailId))).length ↔ _
    rw [Nat.sub_pos_iff_lt, List.length_filter_lt_length_iff_exists]
    simp
  refine ⟨hiff, ?_, ?_⟩
  · have hself : (deleteEmail rows emailId).1.filter (fun r => !(r.id == emailId)) =
        (deleteEmail rows emailId).1 :=
      List.filter_eq_self.mpr (fun a ha => (List.mem_filter.mp ha).2)
    show decide ((deleteEmail rows emailId).1.length -
        ((deleteEmail rows emailId).1.filter (fun r => !(r.id == emailId))).length > 0) = false
    rw [hself, Nat.sub_self]
    rfl
  · show (if (deleteEmail rows emailId).2 then 200 else 404) = 404 ↔ _
    rcases hdel : (deleteEmail rows emailId).2 with _ | _
    · simp only [Bool.false_eq_true, if_false]
      constructor
      · intro _
        exact fun hex => Bool.false_ne_true (hdel ▸ hiff.mpr hex)
      · intro _
        trivial
    · simp only [if_true]
      constructor
      · intro h200
        exact absurd h200 (by decide)
      · intro hne
        exact absurd (hiff.mp hdel) hne

/-- C9: a simulate-email request without a (truthy) `toEmail` is answered
400 and leaves the store state completely unchanged, so a following
successful insert receives exactly the id it would have received had the
failed request never occurred. -/
theorem simulate_missing_toEmail_noop (p : SimPayload) (now : Nat) (st : ServerState)
    (h : jsFalsy p.toEmail = true) :
    srvSimulate p now st = ({ status := 400, success := false, emailId := none }, st) ∧
    (∀ (q : SimPayload) (now2 : Nat), truthy q.toEmail = true →
      (srvSimulate q now2 (srvSimulate p now st).2).1.emailId = some st.emailId ∧
      (srvSimulate q now2 st).1.emailId = some st.emailId) := by
  have h1 : srvSimulate p now st =
      ({ status := 400, success := false, emailId := none }, st) := by
    unfold srvSimulate
    rw [if_pos h]
  refine ⟨h1, ?_⟩
  intro q now2 hq
  rw [h1]
  constructor <;>
    · show (srvSimulate q now2 st).1.emailId = some st.emailId
      rw [srvSimulate_truthy hq]

/-- C9 witness: the theorem at an empty submission followed by a valid one. -/
theorem simulate_missing_toEmail_witness :
    srvSimulate {} 4 initState = ({ status := 400, success := false, emailId := none },
      initState) ∧
    (srvSimulate { toEmail := some "z@z.com" } 5 (srvSimulate {} 4 initState).2).1.emailId =
      some initState.emailId :=
  ⟨(simulate_missing_toEmail_noop {} 4 initState (by decide)).1,
   ((simulate_missing_toEmail_noop {} 4 initState (by decide)).2
     { toEmail := some "z@z.com" } 5 (by decide)).1⟩

/-- C10: every message stored by the streaming-parser `server.js` webhook
handler has `truncated = true` unconditionally — the flag does not indicate
that any content was actually cut, since the stored body is just the
(possibly complete) first 5000 characters. -/
theorem streaming_webhook_always_truncated (p : Payload) (now : Nat) (st : ServerState)
    (h : truthy p.recipient = true) :
    ∃ e, (srvWebhook p now st).2.emails = st.emails ++ [e] ∧
      e.truncated = true ∧
      e.body = strTake (jsOr p.bodyPlain "") 5000 ∧
      e.html_body = strTake (jsOr p.bodyHtml "") 5000 := by
  unfold srvWebhook
  rw [if_pos h]
  refine ⟨_, rfl, rfl, ?_, ?_⟩
  · show strTake (jsOr (some (jsOr p.bodyPlain "")) "") 5000 = _
    rw [jsOr_some_empty]
  · show strTake (jsOr (some (jsOr p.bodyHtml "")) "") 5000 = _
    rw [jsOr_some_empty]

/-- C10 witness: a 2-character body is stored in full (`"hi"`, nothing cut)
yet still flagged `truncated = true`. -/
theorem streaming_webhook_truncated_witness :
    ∃ e, (srvWebhook shortPayload 9 initState).2.emails = initState.emails ++ [e] ∧
      e.truncated = true ∧ e.body = "hi" := by
  obtain ⟨e, he, htr, hb, _⟩ :=
    streaming_webhook_always_truncated shortPayload 9 initState (by decide)
  refine ⟨e, he, htr, ?_⟩
  rw [hb]
  decide

end STEmail
